import Mathlib

/-!
Shallow embedding of `src/python/spoke.py`: the two Pulumi component
constructs `SpokeVerification` and `SpokeVpc`.  Each construct is modelled
as a pure function from its (resolved) inputs to the list of resource
definitions it declares, in declaration order.  Results of external
lookups (`aws.ec2.get_ami`, `aws.ec2.get_subnets`, `aws.ec2.get_route_table`)
are passed in as parameters, since their values come from the cloud API and
are not computed by the repository's code.  A reference from one resource
to another (e.g. `instance.id`, `http_path.id`, `sg.id`, `tgw_attachment`)
is rendered as the referenced resource's logical name.
-/

set_option autoImplicit false

namespace Spoke

/-- Pulumi `ResourceOptions` fields used by the source: `parent`,
`depends_on` (as logical names), `delete_before_replace`. -/
structure ResourceOptions where
  parent : Option String
  dependsOn : List String
  deleteBeforeReplace : Bool
  deriving DecidableEq, Repr

/-- One security-group rule (shape shared by ingress and egress rules). -/
structure SgRule where
  cidrBlocks : List String
  description : String
  fromPort : Nat
  toPort : Nat
  protocol : String
  deriving DecidableEq, Repr

/-- `aws.ec2.SecurityGroupArgs` as used by the source.  The source passes
no `ingress` argument, so the ingress rule list is empty. -/
structure SecurityGroupArgs where
  description : String
  vpcId : String
  ingress : List SgRule
  egress : List SgRule
  deriving DecidableEq, Repr

/-- `aws.ec2.InstanceArgs` fields set by the source. -/
structure InstanceArgs where
  ami : String
  instanceType : String
  vpcSecurityGroupIds : List String
  subnetId : String
  tagsName : String
  deriving DecidableEq, Repr

/-- `aws.ec2.NetworkInsightsPathArgs` fields set by the source. -/
structure NetworkInsightsPathArgs where
  destination : String
  destinationPort : Nat
  source : String
  protocol : String
  deriving DecidableEq, Repr

/-- `aws.ec2.NetworkInsightsAnalysisArgs` fields set by the source. -/
structure NetworkInsightsAnalysisArgs where
  networkInsightsPathId : String
  waitForCompletion : Bool
  deriving DecidableEq, Repr

/-- `awsx.ec2.SubnetType` values. -/
inductive SubnetType where
  | isolated
  | privateSubnet
  | publicSubnet
  deriving DecidableEq, Repr

/-- `awsx.ec2.SubnetSpecArgs` fields set by the source. -/
structure SubnetSpecArgs where
  name : String
  cidrMask : Nat
  type : SubnetType
  deriving DecidableEq, Repr

/-- `awsx.ec2.NatGatewayStrategy` values. -/
inductive NatGatewayStrategy where
  | none
  | single
  | onePerAz
  deriving DecidableEq, Repr

/-- `awsx.ec2.VpcArgs` fields set by the source. -/
structure VpcArgs where
  cidrBlock : String
  subnetSpecs : List SubnetSpecArgs
  natGatewayStrategy : NatGatewayStrategy
  deriving DecidableEq, Repr

/-- `aws.ec2transitgateway.VpcAttachmentArgs` fields set by the source. -/
structure VpcAttachmentArgs where
  transitGatewayId : String
  subnetIds : List String
  vpcId : String
  defaultRouteTableAssociation : Bool
  defaultRouteTablePropagation : Bool
  tagsName : String
  deriving DecidableEq, Repr

/-- `aws.ec2transitgateway.RouteTableAssociationArgs` (the propagation
resource takes the same two fields). -/
structure RouteTableAssociationArgs where
  transitGatewayAttachmentId : String
  transitGatewayRouteTableId : String
  deriving DecidableEq, Repr

/-- `aws.ec2.RouteArgs` fields set by the source. -/
structure RouteArgs where
  routeTableId : String
  destinationCidrBlock : String
  transitGatewayId : String
  deriving DecidableEq, Repr

/-- A declared resource definition: constructor = resource type, with the
logical name, the args record, and the resource options. -/
inductive Resource where
  | securityGroup (name : String) (args : SecurityGroupArgs) (opts : ResourceOptions)
  | ec2Instance (name : String) (args : InstanceArgs) (opts : ResourceOptions)
  | networkInsightsPath (name : String) (args : NetworkInsightsPathArgs) (opts : ResourceOptions)
  | networkInsightsAnalysis (name : String) (args : NetworkInsightsAnalysisArgs) (opts : ResourceOptions)
  | vpc (name : String) (args : VpcArgs) (opts : ResourceOptions)
  | vpcAttachment (name : String) (args : VpcAttachmentArgs) (opts : ResourceOptions)
  | routeTableAssociation (name : String) (args : RouteTableAssociationArgs) (opts : ResourceOptions)
  | routeTablePropagation (name : String) (args : RouteTableAssociationArgs) (opts : ResourceOptions)
  | route (name : String) (args : RouteArgs) (opts : ResourceOptions)
  deriving DecidableEq, Repr

/-- The logical name of a resource definition. -/
def Resource.resName : Resource → String
  | .securityGroup n _ _ => n
  | .ec2Instance n _ _ => n
  | .networkInsightsPath n _ _ => n
  | .networkInsightsAnalysis n _ _ => n
  | .vpc n _ _ => n
  | .vpcAttachment n _ _ => n
  | .routeTableAssociation n _ _ => n
  | .routeTablePropagation n _ _ => n
  | .route n _ _ => n

/-- The resource options of a resource definition. -/
def Resource.options : Resource → ResourceOptions
  | .securityGroup _ _ o => o
  | .ec2Instance _ _ o => o
  | .networkInsightsPath _ _ o => o
  | .networkInsightsAnalysis _ _ o => o
  | .vpc _ _ o => o
  | .vpcAttachment _ _ o => o
  | .routeTableAssociation _ _ o => o
  | .routeTablePropagation _ _ o => o
  | .route _ _ o => o

def isRoute : Resource → Bool
  | .route _ _ _ => true
  | _ => false

def isVpcAttachment : Resource → Bool
  | .vpcAttachment _ _ _ => true
  | _ => false

def isSecurityGroup : Resource → Bool
  | .securityGroup _ _ _ => true
  | _ => false

def isAnalysis : Resource → Bool
  | .networkInsightsAnalysis _ _ _ => true
  | _ => false

/-- A value registered by `register_outputs`: either a handle to a child
resource (rendered by logical name) or a list of ids. -/
inductive OutputValue where
  | res (name : String)
  | idList (ids : List String)
  deriving DecidableEq, Repr

/-- `SpokeVerificationArgs` from the source (all inputs resolved). -/
structure SpokeVerificationArgs where
  spokeVpcId : String
  spokeInstanceSubnetId : String
  hubIgwId : String
  deriving DecidableEq, Repr

/-- `SpokeVerification.__init__`: the resource definitions it declares, in
order.  `amiId` is the result of the `aws.ec2.get_ami(most_recent=True, ...)`
lookup, an ambient external value, not a constructor parameter in the
source.  Note the source's line 121: the analysis named
`...-network-insights-analysis-https` is given `http_path.id`, i.e. the
name of the HTTP (port 80) path, not the HTTPS path. -/
def buildSpokeVerification (name : String) (args : SpokeVerificationArgs)
    (amiId : String) : List Resource :=
  [ .securityGroup (name ++ "-instance-sg")
      { description := "Allow outbound HTTP/S to any destination"
        vpcId := args.spokeVpcId
        ingress := []
        egress :=
          [ { cidrBlocks := ["0.0.0.0/0"]
              description := "Allow outbound HTTP to any destination"
              fromPort := 80, toPort := 80, protocol := "tcp" }
          , { cidrBlocks := ["0.0.0.0/0"]
              description := "Allow outbound HTTPs to any destination"
              fromPort := 443, toPort := 443, protocol := "tcp" } ] }
      { parent := some name, dependsOn := [], deleteBeforeReplace := false }
  , .ec2Instance (name ++ "-instance")
      { ami := amiId
        instanceType := "t2.micro"
        vpcSecurityGroupIds := [name ++ "-instance-sg"]
        subnetId := args.spokeInstanceSubnetId
        tagsName := name ++ "-instance" }
      { parent := some name, dependsOn := [], deleteBeforeReplace := false }
  , .networkInsightsPath (name ++ "-network-insights-path-http")
      { destination := args.hubIgwId
        destinationPort := 80
        source := name ++ "-instance"
        protocol := "tcp" }
      { parent := some name, dependsOn := [], deleteBeforeReplace := false }
  , .networkInsightsAnalysis (name ++ "-network-insights-analysis-http")
      { networkInsightsPathId := name ++ "-network-insights-path-http"
        waitForCompletion := false }
      { parent := some name, dependsOn := [name ++ "-instance"]
        deleteBeforeReplace := false }
  , .networkInsightsPath (name ++ "-network-insights-path-https")
      { destination := args.hubIgwId
        destinationPort := 443
        source := name ++ "-instance"
        protocol := "tcp" }
      { parent := some name, dependsOn := [], deleteBeforeReplace := false }
  , .networkInsightsAnalysis (name ++ "-network-insights-analysis-https")
      { networkInsightsPathId := name ++ "-network-insights-path-http"
        waitForCompletion := false }
      { parent := some name, dependsOn := [name ++ "-instance"]
        deleteBeforeReplace := false }
  ]

/-- The `register_outputs` map of `SpokeVerification.__init__`. -/
def spokeVerificationOutputs (name : String) : List (String × OutputValue) :=
  [ ("http_analysis", .res (name ++ "-network-insights-analysis-http"))
  , ("https_analysis", .res (name ++ "-network-insights-analysis-https")) ]

/-- `SpokeVpcArgs` from the source (all inputs resolved). -/
structure SpokeVpcArgs where
  vpcCidrBlock : String
  tgwId : String
  tgwRouteTableId : String
  deriving DecidableEq, Repr

/-- The `awsx.ec2.Vpc` declaration at the top of `SpokeVpc.__init__`: two
ISOLATED subnet specs (`private` and `tgw`, mask 28) and NAT strategy NONE.
The source passes no `opts`, so the resource has no parent. -/
def spokeVpcResource (name : String) (args : SpokeVpcArgs) : Resource :=
  .vpc (name ++ "-vpc")
    { cidrBlock := args.vpcCidrBlock
      subnetSpecs :=
        [ { name := "private", cidrMask := 28, type := .isolated }
        , { name := "tgw", cidrMask := 28, type := .isolated } ]
      natGatewayStrategy := .none }
    { parent := Option.none, dependsOn := [], deleteBeforeReplace := false }

/-- The tag value pattern of the first `aws.ec2.get_subnets` filter for the
workload subnets (`tag:Name` = `{name}-vpc-private-*`). -/
def privateSubnetTagPattern (name : String) : String :=
  name ++ "-vpc-private-*"

/-- The tag value pattern of the first `aws.ec2.get_subnets` filter for the
transit-gateway subnets (`tag:Name` = `{name}-vpc-tgw-*`). -/
def tgwSubnetTagPattern (name : String) : String :=
  name ++ "-vpc-tgw-*"

/-- The logical name of the route the loop declares for one discovered
workload subnet id: `spoke{name}-tgw-route-{subnet_id}`. -/
def tgwRouteName (name subnetId : String) : String :=
  "spoke" ++ name ++ "-tgw-route-" ++ subnetId

/-- `SpokeVpc._create_tgw_attachment_resources`: the resource definitions
declared inside the joined-output continuation, in order.  `routeTableOf`
is the external `aws.ec2.get_route_table(subnet_id=...)` lookup. -/
def createTgwAttachmentResources (name : String) (args : SpokeVpcArgs)
    (vpcId : String) (privateSubnetIds tgwSubnetIds : List String)
    (routeTableOf : String → String) : List Resource :=
  [ .vpcAttachment (name ++ "-tgw-vpc-attachment")
      { transitGatewayId := args.tgwId
        subnetIds := tgwSubnetIds
        vpcId := vpcId
        defaultRouteTableAssociation := false
        defaultRouteTablePropagation := false
        tagsName := name ++ "-tgw-vpc-attachment" }
      { parent := some name, dependsOn := [name ++ "-vpc"]
        deleteBeforeReplace := true }
  , .routeTableAssociation (name ++ "-tgw-route-table-assoc")
      { transitGatewayAttachmentId := name ++ "-tgw-vpc-attachment"
        transitGatewayRouteTableId := args.tgwRouteTableId }
      { parent := some name, dependsOn := [], deleteBeforeReplace := false }
  , .routeTablePropagation (name ++ "-tgw-route-table-propagation")
      { transitGatewayAttachmentId := name ++ "-tgw-vpc-attachment"
        transitGatewayRouteTableId := args.tgwRouteTableId }
      { parent := some name, dependsOn := [], deleteBeforeReplace := false }
  ] ++ privateSubnetIds.map (fun subnetId =>
    .route (tgwRouteName name subnetId)
      { routeTableId := routeTableOf subnetId
        destinationCidrBlock := "0.0.0.0/0"
        transitGatewayId := args.tgwId }
      { parent := some name, dependsOn := [name ++ "-tgw-vpc-attachment"]
        deleteBeforeReplace := false })

/-- `SpokeVpc.__init__` end to end: the VPC declaration followed by the
continuation's resources.  `vpcId`, `privateSubnetIds` and `tgwSubnetIds`
are the resolved values of the three joined handles (`self.vpc.vpc_id`,
`private_subnets.ids`, `tgw_subnets.ids`). -/
def buildSpokeVpc (name : String) (args : SpokeVpcArgs) (vpcId : String)
    (privateSubnetIds tgwSubnetIds : List String)
    (routeTableOf : String → String) : List Resource :=
  spokeVpcResource name args ::
    createTgwAttachmentResources name args vpcId privateSubnetIds
      tgwSubnetIds routeTableOf

/-- The `register_outputs` map at the end of
`SpokeVpc._create_tgw_attachment_resources`; `workload_subnet_ids` is
`private_subnets.ids` (line 196). -/
def spokeVpcOutputs (name : String) (privateSubnetIds : List String) :
    List (String × OutputValue) :=
  [ ("vpc", .res (name ++ "-vpc"))
  , ("workload_subnet_ids", .idList privateSubnetIds) ]

/-- The resource definitions of a new plan absent from an old plan: the
resource operations a re-run would perform beyond the previous run. -/
def planDiff (newPlan oldPlan : List Resource) : List Resource :=
  newPlan.filter (fun r => ¬ r ∈ oldPlan)

/-- Modelled from the spec: the provisioning engine's deferred
output-resolution protocol (spec §4.1), implemented by the external Pulumi
SDK and absent from `src/`.  The events of resolving the three joined
handles of `SpokeVpc.__init__` line 211 and of running the attached
continuation. -/
inductive JoinEvent where
  | resolveVpcId
  | resolvePrivateIds
  | resolveTgwIds
  | runContinuation
  deriving DecidableEq, Repr

/-- Modelled from the spec: an external lookup (invoke) suspends until
every unresolved handle among its inputs has resolved, so its own result
resolves no earlier than the latest input. -/
def invokeResolveTime (inputTimes : List Nat) : Nat :=
  inputTimes.foldr max 0

/-- Modelled from the spec: the resolve time of a `get_subnets` discovery
whose filters reference the owning VPC's `vpc_id` handle, resolved at
`tv`. -/
def subnetDiscoveryTime (tv : Nat) : Nat :=
  invokeResolveTime [tv]

/-- Modelled from the spec: the timed event schedule of the joined handle
`pulumi.Output.all(vpc_id, private_ids, tgw_ids).apply(...)`: each input
resolves at its own time, and the single continuation runs when all three
have resolved (the join resolves at the maximum input time). -/
def joinSchedule (tv tp tt : Nat) : List (Nat × JoinEvent) :=
  [ (tv, .resolveVpcId)
  , (tp, .resolvePrivateIds)
  , (tt, .resolveTgwIds)
  , (max tv (max tp tt), .runContinuation) ]

/-- The args of the first `vpc` resource definition of a plan, if any. -/
def vpcSpecOf : List Resource → Option VpcArgs
  | [] => Option.none
  | .vpc _ a _ :: _ => some a
  | _ :: rest => vpcSpecOf rest

/-- The args of the first transit-gateway VPC attachment of a plan. -/
def attachmentArgsOf : List Resource → Option VpcAttachmentArgs
  | [] => Option.none
  | .vpcAttachment _ a _ :: _ => some a
  | _ :: rest => attachmentArgsOf rest

/-- The analyses of a plan, as pairs of the analysis's logical name and the
path id it is bound to, in declaration order. -/
def analysisBindings : List Resource → List (String × String)
  | [] => []
  | .networkInsightsAnalysis n a _ :: rest =>
      (n, a.networkInsightsPathId) :: analysisBindings rest
  | _ :: rest => analysisBindings rest

/-- The network-insights paths of a plan, as pairs of logical name and
args, in declaration order. -/
def pathsOf : List Resource → List (String × NetworkInsightsPathArgs)
  | [] => []
  | .networkInsightsPath n a _ :: rest => (n, a) :: pathsOf rest
  | _ :: rest => pathsOf rest

/-- The destination port of the network-insights path of a plan with the
given logical name, if any. -/
def pathPortOf : List Resource → String → Option Nat
  | [], _ => Option.none
  | .networkInsightsPath n a _ :: rest, q =>
      if n = q then some a.destinationPort else pathPortOf rest q
  | _ :: rest, q => pathPortOf rest q

/-- The ingress and egress rule lists of the first security group of a
plan. -/
def sgRulesOf : List Resource → Option (List SgRule × List SgRule)
  | [] => Option.none
  | .securityGroup _ a _ :: _ => some (a.ingress, a.egress)
  | _ :: rest => sgRulesOf rest

/-- The security-group id list of the first EC2 instance of a plan. -/
def instanceSgIdsOf : List Resource → Option (List String)
  | [] => Option.none
  | .ec2Instance _ a _ :: _ => some a.vpcSecurityGroupIds
  | _ :: rest => instanceSgIdsOf rest

def isInstance : Resource → Bool
  | .ec2Instance _ _ _ => true
  | _ => false

theorem string_append_left_cancel {p s t : String} (h : p ++ s = p ++ t) :
    s = t := by
  have hd := congrArg String.data h
  rw [String.data_append, String.data_append] at hd
  exact String.ext (List.append_cancel_left hd)

theorem tgwRouteName_inj {name a b : String}
    (h : tgwRouteName name a = tgwRouteName name b) : a = b := by
  unfold tgwRouteName at h
  exact string_append_left_cancel h

theorem planDiff_self (l : List Resource) : planDiff l l = [] := by
  simp only [planDiff, List.filter_eq_nil_iff]
  intro a ha
  simp [ha]

/-- C5: for every SpokeVpc construct, regardless of the supplied CIDR
block, the VPC is declared with exactly two subnet specs, one named
"private" and one named "tgw", both ISOLATED, and with NAT gateway
strategy NONE. -/
theorem spokeVpc_two_isolated_subnet_specs_no_nat (name : String)
    (args : SpokeVpcArgs) (vpcId : String) (ps ts : List String)
    (rt : String → String) :
    ∃ a : VpcArgs,
      vpcSpecOf (buildSpokeVpc name args vpcId ps ts rt) = some a ∧
      a.subnetSpecs.map SubnetSpecArgs.name = ["private", "tgw"] ∧
      a.subnetSpecs.map SubnetSpecArgs.type = [.isolated, .isolated] ∧
      a.subnetSpecs.length = 2 ∧
      a.natGatewayStrategy = .none ∧
      a.cidrBlock = args.vpcCidrBlock :=
  ⟨_, rfl, rfl, rfl, rfl, rfl, rfl⟩

/-- C2: every transit-gateway VPC attachment definition declared by a
SpokeVpc construct carries `delete_before_replace = true`. -/
theorem tgw_attachment_delete_before_replace (name : String)
    (args : SpokeVpcArgs) (vpcId : String) (ps ts : List String)
    (rt : String → String) (r : Resource)
    (hr : r ∈ buildSpokeVpc name args vpcId ps ts rt)
    (ha : isVpcAttachment r = true) :
    (Resource.options r).deleteBeforeReplace = true := by
  simp only [buildSpokeVpc, createTgwAttachmentResources, spokeVpcResource,
    List.mem_cons, List.mem_append, List.mem_map, List.not_mem_nil,
    or_false] at hr
  rcases hr with rfl | (rfl | rfl | rfl) | ⟨s, -, rfl⟩
  · simp [isVpcAttachment] at ha
  · rfl
  · simp [isVpcAttachment] at ha
  · simp [isVpcAttachment] at ha
  · simp [isVpcAttachment] at ha

theorem tgw_attachment_delete_before_replace_witness :
    (Resource.options ((buildSpokeVpc "s" ⟨"10.0.0.0/16", "tgw-1", "rtb-1"⟩
        "vpc-1" ["p1"] ["t1"] (fun x => x)).get
      ⟨1, by decide⟩)).deleteBeforeReplace = true :=
  tgw_attachment_delete_before_replace "s" ⟨"10.0.0.0/16", "tgw-1", "rtb-1"⟩
    "vpc-1" ["p1"] ["t1"] (fun x => x) _ (List.get_mem _ _ _) (by decide)

/-- C8 (amended): when both tag-filter subnet lookups resolve to the empty
list, construction does not fail and takes no fallback: it still declares
the VPC, the attachment (with the empty subnet-id list), the association
and the propagation, and declares no routes. -/
theorem empty_subnet_lookup_silently_proceeds (name : String)
    (args : SpokeVpcArgs) (vpcId : String) (rt : String → String) :
    (buildSpokeVpc name args vpcId [] [] rt).length = 4 ∧
    attachmentArgsOf (buildSpokeVpc name args vpcId [] [] rt) =
      some { transitGatewayId := args.tgwId, subnetIds := [], vpcId := vpcId
             defaultRouteTableAssociation := false
             defaultRouteTablePropagation := false
             tagsName := name ++ "-tgw-vpc-attachment" } ∧
    (buildSpokeVpc name args vpcId [] [] rt).filter isRoute = [] :=
  ⟨rfl, rfl, rfl⟩

/-- C8 (counterexample to the claim as stated): with empty discovery
results, construction succeeds and yields a four-resource plan whose
attachment has an empty subnet-id list and which contains no route, so no
fatal empty-lookup path exists in the code. -/
theorem empty_subnet_lookup_counterexample :
    (buildSpokeVpc "s" ⟨"10.0.0.0/16", "tgw-1", "rtb-1"⟩ "vpc-1" [] []
      (fun x => x)).length = 4 ∧
    attachmentArgsOf (buildSpokeVpc "s" ⟨"10.0.0.0/16", "tgw-1", "rtb-1"⟩
        "vpc-1" [] [] (fun x => x)) =
      some { transitGatewayId := "tgw-1", subnetIds := [], vpcId := "vpc-1"
             defaultRouteTableAssociation := false
             defaultRouteTablePropagation := false
             tagsName := "s-tgw-vpc-attachment" } ∧
    ((buildSpokeVpc "s" ⟨"10.0.0.0/16", "tgw-1", "rtb-1"⟩ "vpc-1" [] []
      (fun x => x)).filter isRoute).length = 0 :=
  ⟨rfl, rfl, rfl⟩

/-- C9 (amended): plan construction is a deterministic function of the
inputs together with the external lookup results (AMI id, discovered
subnet ids, route-table ids): with those fixed, a re-run declares the
identical resource set and the diff against the previous run is empty. -/
theorem plan_deterministic_given_lookups (n : String)
    (vargs : SpokeVerificationArgs) (ami : String) (m : String)
    (sargs : SpokeVpcArgs) (vpcId : String) (ps ts : List String)
    (rt : String → String) :
    planDiff (buildSpokeVerification n vargs ami)
        (buildSpokeVerification n vargs ami) = [] ∧
    planDiff (buildSpokeVpc m sargs vpcId ps ts rt)
        (buildSpokeVpc m sargs vpcId ps ts rt) = [] :=
  ⟨planDiff_self _, planDiff_self _⟩

/-- C9 (counterexample to the claim as stated): with all the inputs the
claim lists held fixed, two runs can still produce different plans,
because the `most_recent=True` AMI lookup is an ambient input that can
resolve differently; the re-run diff is then non-empty (the instance is
replaced). -/
theorem plan_differs_under_ami_drift :
    buildSpokeVerification "s" ⟨"vpc-1", "subnet-1", "igw-1"⟩ "ami-001" ≠
      buildSpokeVerification "s" ⟨"vpc-1", "subnet-1", "igw-1"⟩ "ami-002" ∧
    planDiff (buildSpokeVerification "s" ⟨"vpc-1", "subnet-1", "igw-1"⟩ "ami-002")
      (buildSpokeVerification "s" ⟨"vpc-1", "subnet-1", "igw-1"⟩ "ami-001") ≠ [] := by
  exact ⟨by decide, by decide⟩

/-- C10: the SpokeVerification security group declares no ingress rule and
exactly two egress rules, both TCP to 0.0.0.0/0, one for port 80 and one
for port 443; the plan has exactly one security group and exactly one
instance, and the instance is attached to only that security group. -/
theorem verification_sg_locked_down (name : String)
    (args : SpokeVerificationArgs) (ami : String) :
    ((buildSpokeVerification name args ami).filter isSecurityGroup).length = 1 ∧
    ((buildSpokeVerification name args ami).filter isInstance).length = 1 ∧
    sgRulesOf (buildSpokeVerification name args ami) =
      some ([],
        [ { cidrBlocks := ["0.0.0.0/0"]
            description := "Allow outbound HTTP to any destination"
            fromPort := 80, toPort := 80, protocol := "tcp" }
        , { cidrBlocks := ["0.0.0.0/0"]
            description := "Allow outbound HTTPs to any destination"
            fromPort := 443, toPort := 443, protocol := "tcp" } ]) ∧
    instanceSgIdsOf (buildSpokeVerification name args ami) =
      some [name ++ "-instance-sg"] :=
  ⟨rfl, rfl, rfl, rfl⟩

/-- C3: in the join schedule of `pulumi.Output.all(vpc_id, private_ids,
tgw_ids).apply(...)`, the continuation runs exactly once, at a time no
earlier than each input handle's resolve time; and the `get_subnets`
discovery, whose filters reference the VPC id handle, resolves no earlier
than the VPC's create output. -/
theorem join_continuation_runs_once_after_all_inputs (tv tp tt : Nat) :
    ((joinSchedule tv tp tt).filter
        (fun e => e.2 == JoinEvent.runContinuation)).length = 1 ∧
    (∀ e ∈ joinSchedule tv tp tt, e.2 = JoinEvent.runContinuation →
        tv ≤ e.1 ∧ tp ≤ e.1 ∧ tt ≤ e.1) ∧
    tv ≤ subnetDiscoveryTime tv := by
  refine ⟨rfl, ?_, Nat.le_max_left tv 0⟩
  intro e he h
  simp only [joinSchedule, List.mem_cons, List.not_mem_nil, or_false] at he
  rcases he with rfl | rfl | rfl | rfl
  · simp at h
  · simp at h
  · simp at h
  · exact ⟨Nat.le_max_left _ _,
      Nat.le_trans (Nat.le_max_left _ _) (Nat.le_max_right _ _),
      Nat.le_trans (Nat.le_max_right _ _) (Nat.le_max_right _ _)⟩

theorem join_continuation_runs_once_after_all_inputs_witness :
    ((joinSchedule 1 2 3).filter
        (fun e => e.2 == JoinEvent.runContinuation)).length = 1 :=
  (join_continuation_runs_once_after_all_inputs 1 2 3).1

/-- C7: the output surface of each construct is the fixed named set the
source registers and nothing else: SpokeVpc publishes `vpc` (the VPC
handle) and `workload_subnet_ids` (the discovered private subnet-id
list); SpokeVerification publishes `http_analysis` and `https_analysis`;
each published handle names a resource declared by the same construct. -/
theorem construct_output_surface (n : String) (sargs : SpokeVpcArgs)
    (vpcId : String) (ids ts : List String) (rt : String → String)
    (m : String) (vargs : SpokeVerificationArgs) (ami : String) :
    (spokeVpcOutputs n ids).map Prod.fst = ["vpc", "workload_subnet_ids"] ∧
    spokeVpcOutputs n ids =
      [ ("vpc", .res (n ++ "-vpc"))
      , ("workload_subnet_ids", .idList ids) ] ∧
    (spokeVerificationOutputs m).map Prod.fst =
      ["http_analysis", "https_analysis"] ∧
    spokeVerificationOutputs m =
      [ ("http_analysis", .res (m ++ "-network-insights-analysis-http"))
      , ("https_analysis", .res (m ++ "-network-insights-analysis-https")) ] ∧
    (n ++ "-vpc") ∈ (buildSpokeVpc n sargs vpcId ids ts rt).map Resource.resName ∧
    (m ++ "-network-insights-analysis-http") ∈
      (buildSpokeVerification m vargs ami).map Resource.resName ∧
    (m ++ "-network-insights-analysis-https") ∈
      (buildSpokeVerification m vargs ami).map Resource.resName := by
  refine ⟨rfl, rfl, rfl, rfl, ?_, ?_, ?_⟩
  · simp [buildSpokeVpc, spokeVpcResource, Resource.resName]
  · simp [buildSpokeVerification, Resource.resName]
  · simp [buildSpokeVerification, Resource.resName]

/-- C1 (evaluation at the failing input): a SpokeVerification plan
declares exactly two analyses and two paths; the path named `...-http`
has destination port 80 and the one named `...-https` has port 443, both
probing from the instance to the hub gateway — but both analyses,
including the one named `...-https`, are bound to the HTTP (port 80)
path's id, so the HTTPS analysis does not refer to the HTTPS path. -/
theorem https_analysis_bound_to_http_path :
    ((buildSpokeVerification "spoke" ⟨"vpc-1", "subnet-1", "igw-1"⟩
      "ami-1").filter isAnalysis).length = 2 ∧
    pathsOf (buildSpokeVerification "spoke" ⟨"vpc-1", "subnet-1", "igw-1"⟩
        "ami-1") =
      [ ("spoke-network-insights-path-http",
          { destination := "igw-1", destinationPort := 80
            source := "spoke-instance", protocol := "tcp" })
      , ("spoke-network-insights-path-https",
          { destination := "igw-1", destinationPort := 443
            source := "spoke-instance", protocol := "tcp" }) ] ∧
    analysisBindings (buildSpokeVerification "spoke"
        ⟨"vpc-1", "subnet-1", "igw-1"⟩ "ami-1") =
      [ ("spoke-network-insights-analysis-http",
          "spoke-network-insights-path-http")
      , ("spoke-network-insights-analysis-https",
          "spoke-network-insights-path-http") ] ∧
    pathPortOf (buildSpokeVerification "spoke" ⟨"vpc-1", "subnet-1", "igw-1"⟩
        "ami-1") "spoke-network-insights-path-http" = some 80 ∧
    "spoke-network-insights-path-http" ≠ "spoke-network-insights-path-https" := by
  refine ⟨rfl, rfl, rfl, by decide, by decide⟩

/-- C4: every route definition a SpokeVpc construct declares (all of which
target the transit gateway) carries an explicit depends-on edge naming the
transit-gateway attachment, and a matching attachment resource is declared
in the same plan. -/
theorem tgw_route_depends_on_attachment (name : String) (args : SpokeVpcArgs)
    (vpcId : String) (ps ts : List String) (rt : String → String)
    (r : Resource) (hr : r ∈ buildSpokeVpc name args vpcId ps ts rt)
    (hroute : isRoute r = true) :
    (Resource.options r).dependsOn = [name ++ "-tgw-vpc-attachment"] ∧
    ∃ a : Resource, a ∈ buildSpokeVpc name args vpcId ps ts rt ∧
      isVpcAttachment a = true ∧
      Resource.resName a = name ++ "-tgw-vpc-attachment" := by
  constructor
  · simp only [buildSpokeVpc, createTgwAttachmentResources, spokeVpcResource,
      List.mem_cons, List.mem_append, List.mem_map, List.not_mem_nil,
      or_false] at hr
    rcases hr with rfl | (rfl | rfl | rfl) | ⟨s, -, rfl⟩
    · simp [isRoute] at hroute
    · simp [isRoute] at hroute
    · simp [isRoute] at hroute
    · simp [isRoute] at hroute
    · rfl
  · refine ⟨Resource.vpcAttachment (name ++ "-tgw-vpc-attachment")
      { transitGatewayId := args.tgwId, subnetIds := ts, vpcId := vpcId
        defaultRouteTableAssociation := false
        defaultRouteTablePropagation := false
        tagsName := name ++ "-tgw-vpc-attachment" }
      { parent := some name, dependsOn := [name ++ "-vpc"]
        deleteBeforeReplace := true }, ?_, rfl, rfl⟩
    simp [buildSpokeVpc, createTgwAttachmentResources]

theorem tgw_route_depends_on_attachment_witness :
    (Resource.options ((buildSpokeVpc "s" ⟨"10.0.0.0/16", "tgw-1", "rtb-1"⟩
        "vpc-1" ["p1"] ["t1"] (fun x => x)).get
      ⟨4, by decide⟩)).dependsOn = ["s-tgw-vpc-attachment"] :=
  (tgw_route_depends_on_attachment "s" ⟨"10.0.0.0/16", "tgw-1", "rtb-1"⟩
    "vpc-1" ["p1"] ["t1"] (fun x => x) _ (List.get_mem _ _ _) (by decide)).1

theorem buildSpokeVpc_filter_route_named (name : String) (args : SpokeVpcArgs)
    (vpcId : String) (ps ts : List String) (rt : String → String)
    (q : String) :
    ((buildSpokeVpc name args vpcId ps ts rt).filter
        (fun r => isRoute r && (Resource.resName r == q))).length =
      ps.countP (fun x => tgwRouteName name x == q) := by
  simp only [buildSpokeVpc, createTgwAttachmentResources, spokeVpcResource,
    List.filter_cons, List.filter_append, isRoute, Bool.false_and,
    Bool.true_and, Bool.false_eq_true, if_false, List.filter_nil,
    List.nil_append, Resource.resName]
  rw [← List.countP_eq_length_filter, List.countP_map]
  rfl

/-- C6: for every discovered workload subnet id (the discovered list being
duplicate-free), the SpokeVpc plan contains exactly one route definition
named for that subnet, and that route has destination CIDR 0.0.0.0/0,
targets the supplied transit-gateway id, and uses the subnet's discovered
route table. -/
theorem tgw_default_route_unique_per_subnet (name : String)
    (args : SpokeVpcArgs) (vpcId : String) (ps ts : List String)
    (rt : String → String) (s : String) (hnd : ps.Nodup) (hs : s ∈ ps) :
    ((buildSpokeVpc name args vpcId ps ts rt).filter
        (fun r => isRoute r && (Resource.resName r == tgwRouteName name s))).length = 1 ∧
    Resource.route (tgwRouteName name s)
        { routeTableId := rt s, destinationCidrBlock := "0.0.0.0/0"
          transitGatewayId := args.tgwId }
        { parent := some name, dependsOn := [name ++ "-tgw-vpc-attachment"]
          deleteBeforeReplace := false } ∈
      buildSpokeVpc name args vpcId ps ts rt := by
  constructor
  · rw [buildSpokeVpc_filter_route_named]
    have hcong : ps.countP (fun x => tgwRouteName name x == tgwRouteName name s) =
        ps.countP (fun x => x == s) := by
      apply List.countP_congr
      intro x _
      by_cases hx : x = s
      · subst hx; simp
      · have hne : tgwRouteName name x ≠ tgwRouteName name s :=
          fun h => hx (tgwRouteName_inj h)
        simp [hx, hne]
    rw [hcong]
    have hcount : ps.countP (fun x => x == s) = ps.count s := rfl
    rw [hcount]
    exact List.count_eq_one_of_mem hnd hs
  · simp only [buildSpokeVpc, createTgwAttachmentResources, List.mem_cons,
      List.mem_append, List.mem_map]
    refine Or.inr (Or.inr ⟨s, hs, rfl⟩)

theorem tgw_default_route_unique_per_subnet_witness :
    ((buildSpokeVpc "s" ⟨"10.0.0.0/16", "tgw-1", "rtb-1"⟩ "vpc-1"
        ["p1", "p2"] ["t1"] (fun x => x)).filter
      (fun r => isRoute r &&
        (Resource.resName r == tgwRouteName "s" "p1"))).length = 1 :=
  (tgw_default_route_unique_per_subnet "s" ⟨"10.0.0.0/16", "tgw-1", "rtb-1"⟩
    "vpc-1" ["p1", "p2"] ["t1"] (fun x => x) "p1" (by decide) (by decide)).1

end Spoke
